import Mathlib

/-
Verification of the structural-variant event-calling core
(mavis/validate/call.py and structural_variant/assemble.py).

The Python source is embedded shallowly: pure functions become Lean
functions, mutation becomes explicit state passing, and fallible code
returns Except.  Machine integers are modelled as Int (genomic
coordinates) or Nat (counts); the source performs no overflowing
arithmetic.  External collaborators (the Evidence bundle's distance,
traverse and compute_fragment_size callbacks, and the read-orientation
check from the bam module) are passed in as function-valued fields or
parameters, exactly as the source receives them.
-/

namespace Mavis

/-- Structural-variant types (constants.SVTYPE). -/
inductive SVTYPE where
  | DEL | INS | DUP | INV | TRANS | ITRANS
deriving DecidableEq, Repr

/-- Breakpoint orientations (constants.ORIENT).  NS is "not specified". -/
inductive ORIENT where
  | LEFT | RIGHT | NS
deriving DecidableEq, Repr

/-- Call methods (constants.CALL_METHOD). -/
inductive CALL_METHOD where
  | CONTIG | SPAN | SPLIT | FLANK
deriving DecidableEq, Repr

/-- Modelled from the spec: a closed genomic interval [start, stop]
(mavis/interval.py is not under src/).  The field stop plays the role of
the source attribute named end. -/
structure Interval where
  start : Int
  stop : Int
deriving DecidableEq, Repr

/-- Modelled from the spec: two closed intervals overlap
(Interval.overlaps in mavis/interval.py, not under src/). -/
def Interval.overlaps (a b : Interval) : Prop :=
  a.start ≤ b.stop ∧ b.start ≤ a.stop

instance (a b : Interval) : Decidable (Interval.overlaps a b) := by
  unfold Interval.overlaps; infer_instance

/-- Modelled from the spec: the absolute distance (gap) between two
closed intervals, zero when they overlap (Interval.dist in
mavis/interval.py, not under src/; the spec writes it |break1..break2|). -/
def Interval.dist (a b : Interval) : Int :=
  if a.stop < b.start then b.start - a.stop
  else if b.stop < a.start then a.start - b.stop
  else 0

/-- Modelled from the spec: the hull (union) of two closed intervals,
the source operator break1 | break2. -/
def Interval.hull (a b : Interval) : Interval :=
  ⟨min a.start b.start, max a.stop b.stop⟩

/-- Modelled from the spec: the length of a closed interval,
the source expression len(interval). -/
def Interval.length (a : Interval) : Int :=
  a.stop - a.start + 1

/-- Modelled from the spec: a breakpoint is a chromosome name, a closed
position interval and an orientation (mavis/breakpoint.py is not under
src/).  Strand is omitted: no verified property mentions it.  The field
stop plays the role of the source attribute named end. -/
structure Breakpoint where
  chr : String
  start : Int
  stop : Int
  orient : ORIENT
deriving DecidableEq, Repr

/-- The position interval of a breakpoint. -/
def Breakpoint.toInterval (b : Breakpoint) : Interval :=
  ⟨b.start, b.stop⟩

/-- Modelled from the spec: BreakpointPair.classify (mavis/breakpoint.py,
not under src/), from the orientation-geometry table of the spec:
LEFT/RIGHT on one chromosome gives {DEL, INS}, RIGHT/LEFT {DUP},
LEFT/LEFT and RIGHT/RIGHT {INV}; across chromosomes {ITRANS} when the
strands oppose and {TRANS} otherwise.  The table leaves NS orientations
undefined; they are modelled as the empty set. -/
def classify (b1 b2 : Breakpoint) (opposing_strands : Bool) : Finset SVTYPE :=
  if b1.chr = b2.chr then
    match b1.orient, b2.orient with
    | ORIENT.LEFT, ORIENT.RIGHT => {SVTYPE.DEL, SVTYPE.INS}
    | ORIENT.RIGHT, ORIENT.LEFT => {SVTYPE.DUP}
    | ORIENT.LEFT, ORIENT.LEFT => {SVTYPE.INV}
    | ORIENT.RIGHT, ORIENT.RIGHT => {SVTYPE.INV}
    | _, _ => ∅
  else if opposing_strands then {SVTYPE.ITRANS} else {SVTYPE.TRANS}

/-- The compatible type computed at the top of EventCall.__init__
(call.py lines 60-65): INS for DUP, DUP for INS, otherwise None. -/
def compatOf (event_type : SVTYPE) : Option SVTYPE :=
  match event_type with
  | SVTYPE.DUP => some SVTYPE.INS
  | SVTYPE.INS => some SVTYPE.DUP
  | _ => none

/-- Membership of an optional type in a classification set: the Python
test "self.compatible_type in BreakpointPair.classify(self)" where
compatible_type may be None (None is never a member). -/
def optMem (o : Option SVTYPE) (s : Finset SVTYPE) : Bool :=
  match o with
  | some c => decide (c ∈ s)
  | none => false

/-- The swap step of EventCall.__init__ (call.py lines 66-67): if the
requested event_type is not in the classification but its compatible
type is, the two are exchanged. -/
def swapCompat (cls : Finset SVTYPE) (event_type : SVTYPE) : SVTYPE × Option SVTYPE :=
  if event_type ∉ cls ∧ optMem (compatOf event_type) cls = true then
    ((compatOf event_type).getD event_type, some event_type)
  else
    (event_type, compatOf event_type)

/-- The event-type validation of EventCall.__init__ (call.py lines
60-72): compute the compatible type, swap when required, then fail
unless the final event_type is in the classification or equals the
final compatible type (the Python set union classify(self) | {ct}). -/
def resolveType (cls : Finset SVTYPE) (event_type : SVTYPE) :
    Except String (SVTYPE × Option SVTYPE) :=
  if (swapCompat cls event_type).1 ∈ cls ∨
      (swapCompat cls event_type).2 = some (swapCompat cls event_type).1 then
    Except.ok (swapCompat cls event_type)
  else Except.error "event_type is not compatible with the breakpoint call"

/-- An event call: a breakpoint pair plus the resolved type information
(EventCall in call.py; the read-support sets are handled separately by
addFlankingSupport below, and fields that no verified property touches,
such as the evidence back-reference, are not carried). -/
structure EventCall where
  break1 : Breakpoint
  break2 : Breakpoint
  opposing_strands : Bool
  event_type : SVTYPE
  compatible_type : Option SVTYPE
  call_method : CALL_METHOD
  contig : Bool
deriving DecidableEq, Repr

/-- EventCall.has_compatible (call.py lines 22-24). -/
def EventCall.has_compatible (ec : EventCall) : Bool :=
  match ec.compatible_type with
  | none => false
  | some _ => true

/-- EventCall.interchromosomal, inherited from BreakpointPair: the two
breakpoints name different chromosomes (modelled from the spec,
mavis/breakpoint.py is not under src/). -/
def EventCall.interchromosomal (ec : EventCall) : Bool :=
  ec.break1.chr != ec.break2.chr

/-- EventCall.__init__ (call.py lines 26-77): resolve the event type
against the classification of the pair (possibly swapping with the
compatible type, failing when incompatible), then reject a contig given
with a non-contig call method. -/
def mkEventCall (b1 b2 : Breakpoint) (opposing_strands : Bool)
    (event_type : SVTYPE) (call_method : CALL_METHOD) (contig : Bool) :
    Except String EventCall :=
  match resolveType (classify b1 b2 opposing_strands) event_type with
  | Except.error e => Except.error e
  | Except.ok p =>
    if contig ∧ call_method ≠ CALL_METHOD.CONTIG then
      Except.error "if a contig is given the call method must be by contig"
    else
      Except.ok
        { break1 := b1, break2 := b2, opposing_strands := opposing_strands,
          event_type := p.1, compatible_type := p.2,
          call_method := call_method, contig := contig }

/-- An aligned read, restricted to the attributes the caller reads:
the pysam reference_id (chromosome), 0-based reference_start and
reference_end (mavis positions are 1-based, hence the +1 on starts in
the source). -/
structure Read where
  reference_id : Nat
  reference_start : Int
  reference_end : Int
deriving DecidableEq, Repr

/-- The Evidence bundle, restricted to what the verified caller code
reads.  The collaborator callbacks distance, traverse and
compute_fragment_size are carried as function-valued fields, exactly as
the source receives them on the evidence object (spec section 6). -/
structure Evidence where
  break1 : Breakpoint
  break2 : Breakpoint
  read_length : Int
  min_expected_fragment_size : Int
  max_expected_fragment_size : Int
  min_flanking_pairs_resolution : Nat
  stranded : Bool
  flanking_pairs : List (Read × Read)
  compute_fragment_size : Read → Read → Interval
  distance : Int → Int → Interval
  traverse : Int → Int → ORIENT → Interval

/-- Evidence.interchromosomal, inherited from BreakpointPair (modelled
from the spec: break1.chr differs from break2.chr). -/
def Evidence.interchromosomal (ev : Evidence) : Bool :=
  ev.break1.chr != ev.break2.chr

/-- filter_consumed_pairs (call.py lines 472-496): keep the tuples
where neither read is in the consumed set.  Python sets of reads are
modelled as lists. -/
def filter_consumed_pairs (pairs : List (Read × Read)) (consumed_reads : List Read) :
    List (Read × Read) :=
  pairs.filter (fun pr => decide (pr.1 ∉ consumed_reads ∧ pr.2 ∉ consumed_reads))

/-- The per-pair acceptance test of EventCall.add_flanking_support
(call.py lines 132-180): fragment-size check for DEL and INS, the
interchromosomal consistency check, the orientation check delegated to
the bam collaborator orientation_supports_type (mavis/bam/read.py, not
under src/, passed in as a function), and the per-quadrant position
inequalities with LEFT and RIGHT exchanged for compatible support. -/
def acceptFlankingPair (orientation_supports_type : Read → Option SVTYPE → Bool)
    (ev : Evidence) (ec : EventCall) (is_compatible : Bool) (read mate : Read) : Bool :=
  let min_frag := max (ev.min_expected_fragment_size +
      Interval.dist ec.break1.toInterval ec.break2.toInterval) ev.max_expected_fragment_size
  let max_frag := (Interval.hull ec.break1.toInterval ec.break2.toInterval).length +
      ev.max_expected_fragment_size
  let fragment_size := ev.compute_fragment_size read mate
  if ec.event_type = SVTYPE.DEL ∧
      (fragment_size.stop < min_frag ∨ fragment_size.start > max_frag) then false
  else if ec.event_type = SVTYPE.INS ∧
      ev.min_expected_fragment_size ≤ fragment_size.start then false
  else if ec.interchromosomal ≠ (read.reference_id != mate.reference_id) then false
  else if orientation_supports_type read
      (if is_compatible then ec.compatible_type else some ec.event_type) = false then false
  else
    let left := if is_compatible then ORIENT.RIGHT else ORIENT.LEFT
    if ec.break1.orient = left then
      if ec.break2.orient = left then
        decide (read.reference_start + 1 ≤ ec.break1.stop ∧
          mate.reference_start + 1 ≤ ec.break2.stop ∧
          (ec.break1.start < mate.reference_end ∨ ec.interchromosomal = true))
      else
        decide (read.reference_start + 1 ≤ ec.break1.stop ∧
          ec.break2.start ≤ mate.reference_end)
    else
      if ec.break2.orient = left then
        decide (ec.break1.start ≤ read.reference_end ∧
          mate.reference_start + 1 ≤ ec.break2.stop)
      else
        decide (ec.break1.start ≤ read.reference_end ∧
          ec.break2.start ≤ mate.reference_end ∧
          (read.reference_end < ec.break2.stop ∨ ec.interchromosomal = true))

/-- EventCall.add_flanking_support (call.py lines 118-184): the set of
candidate pairs that pass every predicate.  The source adds them to
self.flanking_pairs (or compatible_flanking_pairs when is_compatible);
the embedding returns the accepted subset. -/
def addFlankingSupport (orientation_supports_type : Read → Option SVTYPE → Bool)
    (ev : Evidence) (ec : EventCall) (flanking_pairs : List (Read × Read))
    (is_compatible : Bool) : List (Read × Read) :=
  flanking_pairs.filter
    (fun pr => acceptFlankingPair orientation_supports_type ev ec is_compatible pr.1 pr.2)

/-- The flanking-pair fragment-size filter of _call_by_flanking_pairs
(call.py lines 632-647): drop consumed pairs, then for DEL require
fragment.end above max_expected_fragment_size and for INS require
fragment.start below min_expected_fragment_size. -/
def survivingFlankingPairs (ev : Evidence) (event_type : SVTYPE)
    (consumed_evidence : List Read) : List (Read × Read) :=
  (filter_consumed_pairs ev.flanking_pairs consumed_evidence).filter (fun pr =>
    let fragment_size := ev.compute_fragment_size pr.1 pr.2
    if event_type = SVTYPE.DEL then
      decide (ev.max_expected_fragment_size < fragment_size.stop)
    else if event_type = SVTYPE.INS then
      decide (fragment_size.start < ev.min_expected_fragment_size)
    else true)

/-- The side-1 read positions collected by _call_by_flanking_pairs
(call.py line 646): start+1 and end of each surviving side-1 read. -/
def flankFirstPositions (ev : Evidence) (event_type : SVTYPE)
    (consumed_evidence : List Read) : List Int :=
  ((survivingFlankingPairs ev event_type consumed_evidence).map
    (fun pr => [pr.1.reference_start + 1, pr.1.reference_end])).flatten

/-- The side-2 mate positions collected by _call_by_flanking_pairs
(call.py line 647). -/
def flankSecondPositions (ev : Evidence) (event_type : SVTYPE)
    (consumed_evidence : List Read) : List Int :=
  ((survivingFlankingPairs ev event_type consumed_evidence).map
    (fun pr => [pr.2.reference_start + 1, pr.2.reference_end])).flatten

/-- Interval(min(positions), max(positions)) as in call.py lines
651-652; the getD 0 default is never reached because the caller fails
first on an empty surviving set. -/
def coverInterval (positions : List Int) : Interval :=
  ⟨(positions.min?).getD 0, (positions.max?).getD 0⟩

/-- cover1 of _call_by_flanking_pairs (call.py line 651). -/
def flankCover1 (ev : Evidence) (event_type : SVTYPE)
    (consumed_evidence : List Read) : Interval :=
  coverInterval (flankFirstPositions ev event_type consumed_evidence)

/-- cover2 of _call_by_flanking_pairs (call.py line 652). -/
def flankCover2 (ev : Evidence) (event_type : SVTYPE)
    (consumed_evidence : List Read) : Interval :=
  coverInterval (flankSecondPositions ev event_type consumed_evidence)

/-- _call_interval_by_flanking_coverage (call.py lines 585-607). -/
def _call_interval_by_flanking_coverage (coverage : Interval) (orientation : ORIENT)
    (max_expected_fragment_size read_length : Int)
    (distance : Int → Int → Interval) (traverse : Int → Int → ORIENT → Interval) :
    Except String Interval :=
  if max_expected_fragment_size ≤ 0 ∨ read_length ≤ 0 then
    Except.error "max_expected_fragment_size and read_length must be positive integers"
  else
    let coverage_d := (distance coverage.start coverage.stop).start + 1
    let max_interval := max_expected_fragment_size - read_length
    if max_interval < coverage_d then
      Except.error "length of the coverage interval is greater than the maximum expected"
    else
      match orientation with
      | ORIENT.LEFT =>
        Except.ok ⟨coverage.stop, (traverse coverage.stop (max_interval - coverage_d) ORIENT.RIGHT).stop⟩
      | ORIENT.RIGHT =>
        Except.ok ⟨max 1 ((traverse coverage.start (max_interval - coverage_d) ORIENT.LEFT).start),
          coverage.start⟩
      | ORIENT.NS => Except.error "orientation must be specific"

/-- Modelled from the spec: constructing a Breakpoint validates that its
position is a closed interval with start not greater than the end
(mavis/breakpoint.py is not under src/). -/
def mkBreakpoint (chr : String) (start stop : Int) (orient : ORIENT) :
    Except String Breakpoint :=
  if start ≤ stop then Except.ok ⟨chr, start, stop, orient⟩
  else Except.error "interval start must be less than or equal to the end"

/-- _call_by_flanking_pairs (call.py lines 610-748): filter pairs by
consumption and fragment size, require min_flanking_pairs_resolution
surviving pairs, compute the two coverage intervals, apply the overlap
guard (with the special duplication guard), then resolve the called
breakpoints from the coverage windows.  The strand decision of lines
659-663 only assigns strands, which the model omits.  The ValueError
branch models the min() call on an empty position list (reachable only
when min_flanking_pairs_resolution is zero). -/
def _call_by_flanking_pairs (ev : Evidence) (event_type : SVTYPE)
    (first_breakpoint_called second_breakpoint_called : Option Breakpoint)
    (consumed_evidence : List Read) : Except String (Breakpoint × Breakpoint) :=
  if (survivingFlankingPairs ev event_type consumed_evidence).length <
      ev.min_flanking_pairs_resolution then
    Except.error "insufficient coverage to call by flanking reads"
  else if (survivingFlankingPairs ev event_type consumed_evidence).isEmpty then
    Except.error "ValueError: min() arg is an empty sequence"
  else if ev.interchromosomal = false ∧
      Interval.overlaps (flankCover1 ev event_type consumed_evidence)
        (flankCover2 ev event_type consumed_evidence) ∧
      event_type ≠ SVTYPE.DUP then
    Except.error "flanking read coverage overlaps. cannot call by flanking reads"
  else if ev.interchromosomal = false ∧ event_type = SVTYPE.DUP ∧
      ((flankCover2 ev event_type consumed_evidence).start <
          (flankCover1 ev event_type consumed_evidence).start ∨
        (flankCover2 ev event_type consumed_evidence).stop <
          (flankCover1 ev event_type consumed_evidence).stop) then
    Except.error "flanking coverage for duplications must have some distinct positions"
  else
    match first_breakpoint_called, second_breakpoint_called with
    | none, none =>
      match _call_interval_by_flanking_coverage (flankCover1 ev event_type consumed_evidence)
          ev.break1.orient ev.max_expected_fragment_size ev.read_length ev.distance ev.traverse with
      | Except.error e => Except.error e
      | Except.ok window1 =>
        match _call_interval_by_flanking_coverage (flankCover2 ev event_type consumed_evidence)
            ev.break2.orient ev.max_expected_fragment_size ev.read_length ev.distance ev.traverse with
        | Except.error e => Except.error e
        | Except.ok window2 =>
          if ev.interchromosomal = false ∧ window2.stop < window1.start then
            Except.error "flanking window regions are incompatible"
          else
            let w1stop := if ev.interchromosomal = false then
                min window1.stop (min window2.stop
                  ((flankCover2 ev event_type consumed_evidence).start -
                    (if event_type = SVTYPE.DUP then 0 else 1)))
              else window1.stop
            let w2start := if ev.interchromosomal = false then
                max window1.start (max window2.start
                  ((flankCover1 ev event_type consumed_evidence).stop +
                    (if event_type = SVTYPE.DUP then 0 else 1)))
              else window2.start
            match mkBreakpoint ev.break1.chr window1.start w1stop ev.break1.orient with
            | Except.error e => Except.error e
            | Except.ok fbc =>
              match mkBreakpoint ev.break2.chr w2start window2.stop ev.break2.orient with
              | Except.error e => Except.error e
              | Except.ok sbc => Except.ok (fbc, sbc)
    | some fbc, none =>
      if (fbc.orient = ORIENT.LEFT ∧
            fbc.stop < (flankCover1 ev event_type consumed_evidence).stop) ∨
          (fbc.orient = ORIENT.RIGHT ∧
            (flankCover1 ev event_type consumed_evidence).start < fbc.start) then
        Except.error "input breakpoint is incompatible with flanking coverage"
      else
        match _call_interval_by_flanking_coverage (flankCover2 ev event_type consumed_evidence)
            ev.break2.orient ev.max_expected_fragment_size ev.read_length ev.distance ev.traverse with
        | Except.error e => Except.error e
        | Except.ok window =>
          let wstart := if ev.interchromosomal = false then
              max window.start (max (fbc.start + (if event_type = SVTYPE.DUP then 0 else 1))
                ((flankCover1 ev event_type consumed_evidence).stop + 1))
            else window.start
          if ev.interchromosomal = false ∧ (window.stop < wstart ∨ window.stop < fbc.start) then
            Except.error "input breakpoint incompatible with call"
          else
            match mkBreakpoint ev.break2.chr wstart window.stop ev.break2.orient with
            | Except.error e => Except.error e
            | Except.ok sbc => Except.ok (fbc, sbc)
    | none, some sbc =>
      if (sbc.orient = ORIENT.LEFT ∧
            sbc.stop < (flankCover2 ev event_type consumed_evidence).stop) ∨
          (sbc.orient = ORIENT.RIGHT ∧
            (flankCover2 ev event_type consumed_evidence).start < sbc.start) then
        Except.error "input breakpoint is incompatible with flanking coverage"
      else
        match _call_interval_by_flanking_coverage (flankCover1 ev event_type consumed_evidence)
            ev.break1.orient ev.max_expected_fragment_size ev.read_length ev.distance ev.traverse with
        | Except.error e => Except.error e
        | Except.ok window =>
          let wstop := if ev.interchromosomal = false then
              min window.stop (min (sbc.stop - (if event_type = SVTYPE.DUP then 0 else 1))
                ((flankCover2 ev event_type consumed_evidence).start - 1))
            else window.stop
          if ev.interchromosomal = false ∧ (wstop < window.start ∨ sbc.stop < window.start) then
            Except.error "input breakpoint incompatible with call"
          else
            match mkBreakpoint ev.break1.chr window.start wstop ev.break1.orient with
            | Except.error e => Except.error e
            | Except.ok fbc => Except.ok (fbc, sbc)
    | some _, some _ => Except.error "cannot input both breakpoints"

/-- True exactly when an Except value is an error. -/
def exceptFailed {α : Type} : Except String α → Bool
  | Except.error _ => true
  | Except.ok _ => false

/-- A permissive orientation collaborator used by concrete witnesses. -/
def ostAlways : Read → Option SVTYPE → Bool := fun _ _ => true

/-- Concrete genome-style distance callback for witnesses: the plain
coordinate difference, as a point interval. -/
def genomeDistance : Int → Int → Interval := fun a b => ⟨b - a, b - a⟩

/-- Concrete genome-style traverse callback for witnesses: shift a
position by a distance in the given direction, as a point interval. -/
def genomeTraverse : Int → Int → ORIENT → Interval := fun pos d o =>
  match o with
  | ORIENT.LEFT => ⟨pos - d, pos - d⟩
  | _ => ⟨pos + d, pos + d⟩

/-- Concrete deletion call used by the flanking-support witness. -/
def ecC4 : EventCall :=
  { break1 := ⟨"1", 1000, 1000, ORIENT.LEFT⟩, break2 := ⟨"1", 2000, 2000, ORIENT.RIGHT⟩,
    opposing_strands := false, event_type := SVTYPE.DEL, compatible_type := none,
    call_method := CALL_METHOD.SPLIT, contig := false }

/-- Concrete evidence used by the flanking-support witness. -/
def evC4 : Evidence :=
  { break1 := ⟨"1", 1000, 1000, ORIENT.LEFT⟩, break2 := ⟨"1", 2000, 2000, ORIENT.RIGHT⟩,
    read_length := 100, min_expected_fragment_size := 200,
    max_expected_fragment_size := 500, min_flanking_pairs_resolution := 1,
    stranded := false, flanking_pairs := [],
    compute_fragment_size := fun _ _ => ⟨1300, 1300⟩,
    distance := genomeDistance, traverse := genomeTraverse }

/-- Concrete duplication evidence (RIGHT/LEFT geometry on one
chromosome, a single flanking pair with the read left of the mate) used
by the flanking-call theorems for C3. -/
def evC3 : Evidence :=
  { break1 := ⟨"1", 1000, 1000, ORIENT.RIGHT⟩, break2 := ⟨"1", 1500, 1500, ORIENT.LEFT⟩,
    read_length := 100, min_expected_fragment_size := 300,
    max_expected_fragment_size := 500, min_flanking_pairs_resolution := 1,
    stranded := false, flanking_pairs := [(⟨0, 1000, 1100⟩, ⟨0, 1500, 1600⟩)],
    compute_fragment_size := fun _ _ => ⟨600, 600⟩,
    distance := genomeDistance, traverse := genomeTraverse }

/-- The successful calls of one split/flank resolver outcome. -/
def okCalls : Except String (List EventCall) → Option (List EventCall)
  | Except.ok calls => some calls
  | Except.error _ => none

/-- The diagnostic message of one failed split/flank resolver outcome. -/
def errMsg : Except String (List EventCall) → Option String
  | Except.ok _ => none
  | Except.error e => some e

/-- call_events (call.py lines 543-582), modelled parametrically over
the outcomes of the three resolution stages: the contig calls, the
spanning calls, and the per-event-type split/flank outcomes in sorted
event-type order, where an Except error stands for a raised and caught
UserWarning.  The source extends calls in exactly this order, collects
the error strings in a set (here: dedup), and raises only when no
method produced a call, joining the sorted diagnostics with semicolons
or falling back to the literal insufficient-evidence message. -/
def callEvents (contig_calls spanning_calls : List EventCall)
    (split_results : List (Except String (List EventCall))) :
    Except String (List EventCall) :=
  if contig_calls ++ spanning_calls ++ (split_results.filterMap okCalls).flatten = [] ∧
      (split_results.filterMap errMsg).dedup ≠ [] then
    Except.error (String.intercalate ";"
      (((split_results.filterMap errMsg).dedup).insertionSort (· ≤ ·)))
  else if contig_calls ++ spanning_calls ++ (split_results.filterMap okCalls).flatten = [] then
    Except.error "insufficient evidence to call events"
  else
    Except.ok (contig_calls ++ spanning_calls ++ (split_results.filterMap okCalls).flatten)

/-- A contig assembled from the de Bruijn graph (assemble.py lines
8-28).  The read-remapping stage of assemble (lines 185-200) only
populates the remapped-read weights, through collaborators that are not
under src/ (read_tools), and never changes the returned sequences or
scores; a contig is therefore modelled by its sequence and build
score. -/
structure Contig where
  seq : String
  score : Nat
deriving DecidableEq, Repr

/-- The de Bruijn graph state (assemble.py lines 31-47): node and edge
lists in insertion order without duplicates, plus the edge_freq map.
networkx remove_node removes a node with its incident edges but leaves
edge_freq entries behind, exactly as DeBruijnGraph does. -/
structure DBGraph where
  nodes : List String
  edges : List (String × String)
  edgeFreq : List ((String × String) × Nat)
deriving DecidableEq, Repr

/-- Increment an edge frequency by one (DeBruijnGraph.add_edge). -/
def bumpFreq : List ((String × String) × Nat) → (String × String) →
    List ((String × String) × Nat)
  | [], e => [(e, 1)]
  | (k, v) :: rest, e =>
    if k = e then (k, v + 1) :: rest else (k, v) :: bumpFreq rest e

/-- Add a node in networkx insertion order, ignoring duplicates. -/
def addNode (g : DBGraph) (n : String) : DBGraph :=
  if n ∈ g.nodes then g else { g with nodes := g.nodes ++ [n] }

/-- DeBruijnGraph.add_edge (assemble.py lines 41-43): bump the edge
frequency and add the edge (networkx keeps a single copy). -/
def addEdge (g : DBGraph) (a b : String) : DBGraph :=
  let h := addNode (addNode g a) b
  { h with
    edges := if (a, b) ∈ h.edges then h.edges else h.edges ++ [(a, b)],
    edgeFreq := bumpFreq h.edgeFreq (a, b) }

/-- Look up an edge frequency (the source indexes edge_freq only for
edges known to exist, so the default is never read). -/
def getFreq (g : DBGraph) (e : String × String) : Nat :=
  ((g.edgeFreq.find? (fun kv => decide (kv.1 = e))).map Prod.snd).getD 0

/-- networkx in_degree of a directed graph node. -/
def inDegree (g : DBGraph) (n : String) : Nat :=
  (g.edges.filter (fun e => decide (e.2 = n))).length

/-- networkx out_degree of a directed graph node. -/
def outDegree (g : DBGraph) (n : String) : Nat :=
  (g.edges.filter (fun e => decide (e.1 = n))).length

/-- networkx degree: in-degree plus out-degree (a self loop counts
twice). -/
def degree (g : DBGraph) (n : String) : Nat :=
  inDegree g n + outDegree g n

/-- networkx remove_node: drop the node and its incident edges; the
edge_freq entries remain stale as in the source class. -/
def removeNode (g : DBGraph) (n : String) : DBGraph :=
  { nodes := g.nodes.filter (fun m => decide (m ≠ n)),
    edges := g.edges.filter (fun e => decide (e.1 ≠ n ∧ e.2 ≠ n)),
    edgeFreq := g.edgeFreq }

/-- Substring helper: the Python slice s[i : i + len]. -/
def strSlice (s : String) (i len : Nat) : String :=
  String.mk ((s.toList.drop i).take len)

/-- kmers (assemble.py lines 204-224): all substrings of the given
size; the Python loop breaks at the first window exceeding the string,
which for this monotone condition is the same as skipping it. -/
def kmers (s : String) (size : Nat) : List String :=
  (List.range s.length).filterMap (fun i =>
    if s.length < i + size then none else some (strSlice s i size))

/-- The graph-construction loop of assemble (assemble.py lines
139-145): one edge per k-mer occurrence, from its prefix of length
size-1 to its suffix of length size-1. -/
def buildGraph (sequences : List String) (kmer_size : Nat) : DBGraph :=
  sequences.foldl (fun g s =>
    (kmers s kmer_size).foldl (fun h kmer =>
      addEdge h (strSlice kmer 0 (kmer.length - 1)) (strSlice kmer 1 (kmer.length - 1))) g)
    ⟨[], [], []⟩

/-- The while loop of DeBruijnGraph.trim_low_weight_tails (assemble.py
lines 60-77): follow a degree-one chain, removing the current node while
its single incident edge is below the weight threshold.  Each recursive
step removes a node, so a fuel of the node count is sufficient. -/
def trimFrom (min_weight : Nat) : Nat → DBGraph → String → DBGraph
  | 0, g, _ => g
  | fuel + 1, g, curr =>
    if degree g curr = 1 then
      if outDegree g curr = 1 then
        match g.edges.find? (fun e => decide (e.1 = curr)) with
        | some e =>
          if getFreq g (curr, e.2) < min_weight then
            trimFrom min_weight fuel (removeNode g curr) e.2
          else g
        | none => g
      else if inDegree g curr = 1 then
        match g.edges.find? (fun e => decide (e.2 = curr)) with
        | some e =>
          if getFreq g (e.1, curr) < min_weight then
            trimFrom min_weight fuel (removeNode g curr) e.1
          else g
        | none => g
      else g
    else g

/-- DeBruijnGraph.trim_low_weight_tails (assemble.py lines 49-82):
iterate tip trimming over a snapshot of the node list, skipping nodes
already removed, then remove the remaining degree-zero singletons. -/
def trimTails (g : DBGraph) (min_weight : Nat) : DBGraph :=
  let g1 := g.nodes.foldl (fun h n =>
    if n ∈ h.nodes then trimFrom min_weight (h.nodes.length + 1) h n else h) g
  g1.nodes.foldl (fun h n =>
    if n ∈ h.nodes ∧ degree h n = 0 then removeNode h n else h) g1

/-- Undirected neighbours, as in digraph_connected_components
(assemble.py lines 85-104) which copies the digraph into a simple
graph. -/
def nbrs (g : DBGraph) (n : String) : List String :=
  g.edges.filterMap (fun e =>
    if e.1 = n then some e.2 else if e.2 = n then some e.1 else none)

/-- Breadth-first collection of the undirected component of the start
node; the generous fuel covers every enqueue. -/
def bfsComp (g : DBGraph) : Nat → List String → List String → List String
  | 0, _, visited => visited
  | _ + 1, [], visited => visited
  | fuel + 1, x :: queue, visited =>
    if x ∈ visited then bfsComp g fuel queue visited
    else bfsComp g fuel (queue ++ nbrs g x) (visited ++ [x])

/-- digraph_connected_components (assemble.py lines 85-104): the
undirected connected components, discovered in node order. -/
def components (g : DBGraph) : List (List String) :=
  (g.nodes.foldl (fun acc n =>
    if n ∈ acc.2 then acc
    else
      (acc.1 ++ [bfsComp g ((g.nodes.length + 1) * (g.edges.length + 1) * 2) [n] []],
        acc.2 ++ bfsComp g ((g.nodes.length + 1) * (g.edges.length + 1) * 2) [n] []))
    (([], []) : List (List String) × List String)).1

/-- The sources of a component (assemble.py lines 160-166): nodes of
non-zero degree with in-degree zero (singletons are ignored). -/
def compSources (g : DBGraph) (component : List String) : List String :=
  component.filter (fun n => decide (degree g n ≠ 0 ∧ inDegree g n = 0))

/-- The sinks of a component (assemble.py lines 160-168): nodes of
non-zero degree and non-zero in-degree with out-degree zero. -/
def compSinks (g : DBGraph) (component : List String) : List String :=
  component.filter (fun n => decide (degree g n ≠ 0 ∧ inDegree g n ≠ 0 ∧ outDegree g n = 0))

/-- nx.all_simple_paths by depth-first search: every repetition-free
path from the current node to the sink.  A fuel of the node count
bounds the path length. -/
def simplePaths (g : DBGraph) : Nat → String → String → List String → List (List String)
  | 0, _, _, _ => []
  | fuel + 1, cur, sink, visited =>
    if cur = sink then [[cur]]
    else
      ((g.edges.filterMap (fun e =>
          if e.1 = cur ∧ e.2 ∉ cur :: visited then some e.2 else none)).map
        (fun nxt => (simplePaths g fuel nxt sink (cur :: visited)).map
          (fun p => cur :: p))).flatten

/-- The path enumeration of assemble (assemble.py lines 157-173): for
every component, every source-sink combination, every simple path. -/
def allPaths (g : DBGraph) : List (List String) :=
  ((components g).map (fun comp =>
    ((compSources g comp).map (fun src =>
      ((compSinks g comp).map (fun snk =>
        simplePaths g (g.nodes.length + 1) src snk [])).flatten)).flatten)).flatten

/-- The assembled sequence of a path (assemble.py line 174): the first
node followed by the last character of each subsequent node. -/
def pathSeq : List String → String
  | [] => ""
  | p0 :: rest => p0 ++ String.mk (rest.filterMap (fun s => s.toList.getLast?))

/-- The score of a path (assemble.py lines 175-177): the sum of the
edge frequencies along its consecutive node pairs. -/
def pathScore (g : DBGraph) (path : List String) : Nat :=
  ((path.zip path.tail).map (fun e => getFreq g e)).sum

/-- One update of the path_scores dict (assemble.py line 178):
path_scores[s] = max(path_scores.get(s, 0), score). -/
def updateScore : List (String × Nat) → String → Nat → List (String × Nat)
  | [], s, sc => [(s, sc)]
  | (k, v) :: rest, s, sc =>
    if k = s then (k, max v sc) :: rest else (k, v) :: updateScore rest s sc

/-- The accumulated path_scores dict over the enumerated paths
(assemble.py lines 155-178). -/
def collectScores (g : DBGraph) (paths : List (List String)) : List (String × Nat) :=
  paths.foldl (fun m p => updateScore m (pathSeq p) (pathScore g p)) []

/-- Dictionary lookup in the path_scores association list. -/
def lookupScore (m : List (String × Nat)) (s : String) : Option Nat :=
  (m.find? (fun kv => decide (kv.1 = s))).map Prod.snd

/-- Combination of an existing optional dictionary entry with a list of
further scores under repeated max-updates; used to characterize the
path_scores accumulation. -/
def maxScoreAcc (acc : Option Nat) (scores : List Nat) : Option Nat :=
  match acc with
  | none => if scores = [] then none else some (scores.foldl max 0)
  | some v => some (scores.foldl max v)

/-- Kahn-style source peeling: repeatedly remove a node of in-degree
zero. -/
def peelSources : Nat → DBGraph → DBGraph
  | 0, g => g
  | fuel + 1, g =>
    match g.nodes.find? (fun n => decide (inDegree g n = 0)) with
    | some n => peelSources fuel (removeNode g n)
    | none => g

/-- A directed graph is acyclic exactly when source peeling consumes
every node (the check nx.is_directed_acyclic_graph of assemble.py line
147). -/
def isAcyclic (g : DBGraph) : Bool :=
  (peelSources g.nodes.length g).nodes.isEmpty

/-- The k-mer size resolution of assemble (assemble.py lines 126-137).
The Python expression int(min_seq * 0.75) equals 3 * min_seq / 4 in
natural-number division: 0.75 is exactly representable and the product
is exact for any realistic sequence length.  A caller-specified size
larger than the shortest sequence is reduced to that length (the source
also emits a warning). -/
def resolveKmerSize (kmer_size : Option Nat) (min_seq : Nat) : Nat :=
  match kmer_size with
  | none => if 3 * min_seq / 4 < 10 then min min_seq 10 else 3 * min_seq / 4
  | some k => if min_seq < k then min_seq else k

/-- The length of the shortest input sequence (assemble.py line 126). -/
def minSeqLen (sequences : List String) : Nat :=
  ((sequences.map String.length).min?).getD 0

/-- assemble (assemble.py lines 107-201): empty input gives an empty
list; otherwise build the de Bruijn graph at the resolved k-mer size,
trim low-weight tails, enumerate and score the source-sink paths, and
keep as contigs the assembled strings that equal no input sequence and
reach min_contig_length (default one more than the shortest input).
The acyclicity guard of lines 147-148 constructs a NotImplementedError
but never raises it, so assembly continues on cyclic graphs; the
read-remapping stage is omitted as explained on Contig. -/
def assemble (sequences : List String) (kmer_size : Option Nat) (min_edge_weight : Nat)
    (min_contig_length : Option Nat) : List Contig :=
  if sequences.isEmpty then []
  else
    ((collectScores (trimTails (buildGraph sequences (resolveKmerSize kmer_size (minSeqLen sequences))) min_edge_weight)
        (allPaths (trimTails (buildGraph sequences (resolveKmerSize kmer_size (minSeqLen sequences))) min_edge_weight))).filter
      (fun kv => decide (kv.1 ∉ sequences) &&
        decide (min_contig_length.getD (minSeqLen sequences + 1) ≤ kv.1.length))).map
      (fun kv => ⟨kv.1, kv.2⟩)

lemma resolveType_ok_iff (cls : Finset SVTYPE) (et : SVTYPE) (p : SVTYPE × Option SVTYPE) :
    resolveType cls et = Except.ok p ↔
      p = swapCompat cls et ∧ (p.1 ∈ cls ∨ p.2 = some p.1) := by
  unfold resolveType
  by_cases h : (swapCompat cls et).1 ∈ cls ∨ (swapCompat cls et).2 = some (swapCompat cls et).1
  · rw [if_pos h]
    constructor
    · intro he; cases he; exact ⟨rfl, h⟩
    · rintro ⟨rfl, _⟩; rfl
  · rw [if_neg h]
    constructor
    · intro he; cases he
    · rintro ⟨rfl, hh⟩; exact absurd hh h

lemma mkEventCall_ok_elim {b1 b2 : Breakpoint} {opp : Bool} {et : SVTYPE}
    {cm : CALL_METHOD} {ctg : Bool} {ec : EventCall}
    (h : mkEventCall b1 b2 opp et cm ctg = Except.ok ec) :
    resolveType (classify b1 b2 opp) et = Except.ok (ec.event_type, ec.compatible_type) ∧
      ec.break1 = b1 ∧ ec.break2 = b2 ∧ ec.opposing_strands = opp := by
  unfold mkEventCall at h
  split at h
  · cases h
  · next p heq =>
    split at h
    · cases h
    · cases h
      refine ⟨?_, rfl, rfl, rfl⟩
      rw [heq, Prod.mk.eta]

lemma swapCompat_snd_eq_compatOf_fst (cls : Finset SVTYPE) (et : SVTYPE) :
    (swapCompat cls et).2 = compatOf (swapCompat cls et).1 := by
  unfold swapCompat
  split
  · next hcond =>
    cases et <;> simp_all [compatOf, optMem]
  · rfl

/-- C1: a successfully constructed EventCall always has its event_type
in classify(self) or equal to its compatible_type; when the requested
type is not in classify(self) but its compatible type is, the two are
swapped; and when the post-swap type is in neither classify(self) nor
{compatible_type}, construction fails with an error
(EventCall.__init__, call.py lines 60-72). -/
theorem eventCall_event_type_valid (b1 b2 : Breakpoint) (opp : Bool) (et : SVTYPE)
    (cm : CALL_METHOD) (ctg : Bool) :
    (∀ ec : EventCall, mkEventCall b1 b2 opp et cm ctg = Except.ok ec →
        ec.event_type ∈ classify b1 b2 opp ∨ ec.compatible_type = some ec.event_type)
    ∧ (et ∉ classify b1 b2 opp → optMem (compatOf et) (classify b1 b2 opp) = true →
        ∀ ec : EventCall, mkEventCall b1 b2 opp et cm ctg = Except.ok ec →
          some ec.event_type = compatOf et ∧ ec.compatible_type = some et)
    ∧ ((swapCompat (classify b1 b2 opp) et).1 ∉ classify b1 b2 opp →
        (swapCompat (classify b1 b2 opp) et).2 ≠ some (swapCompat (classify b1 b2 opp) et).1 →
        mkEventCall b1 b2 opp et cm ctg =
          Except.error "event_type is not compatible with the breakpoint call") := by
  refine ⟨?_, ?_, ?_⟩
  · intro ec h
    obtain ⟨hres, -, -, -⟩ := mkEventCall_ok_elim h
    obtain ⟨-, hval⟩ := (resolveType_ok_iff _ _ _).1 hres
    simpa using hval
  · intro hni hcm ec h
    obtain ⟨hres, -, -, -⟩ := mkEventCall_ok_elim h
    obtain ⟨hpair, -⟩ := (resolveType_ok_iff _ _ _).1 hres
    have hswap : swapCompat (classify b1 b2 opp) et =
        ((compatOf et).getD et, some et) := by
      unfold swapCompat
      rw [if_pos ⟨hni, hcm⟩]
    rw [hswap] at hpair
    have het : ec.event_type = (compatOf et).getD et := congrArg Prod.fst hpair
    have hct : ec.compatible_type = some et := congrArg Prod.snd hpair
    refine ⟨?_, hct⟩
    cases hco : compatOf et with
    | none => rw [hco] at hcm; simp [optMem] at hcm
    | some c => rw [het, hco]; rfl
  · intro h1 h2
    have hres : resolveType (classify b1 b2 opp) et =
        Except.error "event_type is not compatible with the breakpoint call" := by
      unfold resolveType
      rw [if_neg]
      rintro (hc | hc)
      · exact h1 hc
      · exact h2 hc
    unfold mkEventCall
    rw [hres]

/-- Witness for C1: constructing an INS call on RIGHT/LEFT geometry
(classified as DUP only) swaps the primary type to DUP, keeping INS as
the compatible type. -/
theorem eventCall_event_type_valid_witness :
    SVTYPE.INS ∉ classify ⟨"1", 1500, 1500, ORIENT.RIGHT⟩ ⟨"1", 2000, 2000, ORIENT.LEFT⟩ false ∧
    optMem (compatOf SVTYPE.INS)
      (classify ⟨"1", 1500, 1500, ORIENT.RIGHT⟩ ⟨"1", 2000, 2000, ORIENT.LEFT⟩ false) = true ∧
    (some (EventCall.event_type
        { break1 := ⟨"1", 1500, 1500, ORIENT.RIGHT⟩, break2 := ⟨"1", 2000, 2000, ORIENT.LEFT⟩,
          opposing_strands := false, event_type := SVTYPE.DUP,
          compatible_type := some SVTYPE.INS, call_method := CALL_METHOD.SPLIT,
          contig := false }) = compatOf SVTYPE.INS ∧
      EventCall.compatible_type
        { break1 := ⟨"1", 1500, 1500, ORIENT.RIGHT⟩, break2 := ⟨"1", 2000, 2000, ORIENT.LEFT⟩,
          opposing_strands := false, event_type := SVTYPE.DUP,
          compatible_type := some SVTYPE.INS, call_method := CALL_METHOD.SPLIT,
          contig := false } = some SVTYPE.INS) :=
  ⟨by decide, by decide,
    (eventCall_event_type_valid ⟨"1", 1500, 1500, ORIENT.RIGHT⟩ ⟨"1", 2000, 2000, ORIENT.LEFT⟩
        false SVTYPE.INS CALL_METHOD.SPLIT false).2.1 (by decide) (by decide) _ rfl⟩

/-- C9: for every successfully constructed EventCall, the (post-swap)
compatible_type is INS for a DUP call, DUP for an INS call and None
otherwise, and has_compatible holds exactly when compatible_type is not
None (EventCall.__init__ lines 60-65 together with the swap, and
EventCall.has_compatible lines 22-24). -/
theorem eventCall_compatible_type_duality (b1 b2 : Breakpoint) (opp : Bool)
    (et : SVTYPE) (cm : CALL_METHOD) (ctg : Bool) (ec : EventCall)
    (h : mkEventCall b1 b2 opp et cm ctg = Except.ok ec) :
    (ec.event_type = SVTYPE.DUP → ec.compatible_type = some SVTYPE.INS)
    ∧ (ec.event_type = SVTYPE.INS → ec.compatible_type = some SVTYPE.DUP)
    ∧ (ec.event_type ≠ SVTYPE.DUP → ec.event_type ≠ SVTYPE.INS → ec.compatible_type = none)
    ∧ (ec.has_compatible = true ↔ ec.compatible_type ≠ none) := by
  obtain ⟨hres, -, -, -⟩ := mkEventCall_ok_elim h
  obtain ⟨hpair, -⟩ := (resolveType_ok_iff _ _ _).1 hres
  have hdual : ec.compatible_type = compatOf ec.event_type := by
    have h1 : ec.event_type = (swapCompat (classify b1 b2 opp) et).1 :=
      congrArg Prod.fst hpair
    have h2 : ec.compatible_type = (swapCompat (classify b1 b2 opp) et).2 :=
      congrArg Prod.snd hpair
    rw [h1, h2, swapCompat_snd_eq_compatOf_fst]
  refine ⟨?_, ?_, ?_, ?_⟩
  · intro hdup; rw [hdual, hdup]; rfl
  · intro hins; rw [hdual, hins]; rfl
  · intro hnd hni
    rw [hdual]
    cases hev : ec.event_type <;> simp_all [compatOf]
  · cases hct : ec.compatible_type <;> simp [EventCall.has_compatible, hct]

/-- Witness for C9: a DUP call on RIGHT/LEFT geometry has
compatible_type INS and has_compatible true; an INV call on LEFT/LEFT
geometry has compatible_type None. -/
theorem eventCall_compatible_type_duality_witness :
    (EventCall.compatible_type
      { break1 := ⟨"1", 1500, 1500, ORIENT.RIGHT⟩, break2 := ⟨"1", 2000, 2000, ORIENT.LEFT⟩,
        opposing_strands := false, event_type := SVTYPE.DUP,
        compatible_type := some SVTYPE.INS, call_method := CALL_METHOD.SPLIT,
        contig := false } = some SVTYPE.INS)
    ∧ (EventCall.compatible_type
      { break1 := ⟨"1", 1500, 1500, ORIENT.LEFT⟩, break2 := ⟨"1", 2000, 2000, ORIENT.LEFT⟩,
        opposing_strands := true, event_type := SVTYPE.INV,
        compatible_type := none, call_method := CALL_METHOD.SPLIT,
        contig := false } = none) :=
  ⟨(eventCall_compatible_type_duality ⟨"1", 1500, 1500, ORIENT.RIGHT⟩
      ⟨"1", 2000, 2000, ORIENT.LEFT⟩ false SVTYPE.DUP CALL_METHOD.SPLIT false _ rfl).1 rfl,
   ((eventCall_compatible_type_duality ⟨"1", 1500, 1500, ORIENT.LEFT⟩
      ⟨"1", 2000, 2000, ORIENT.LEFT⟩ true SVTYPE.INV CALL_METHOD.SPLIT false _ rfl).2.2.1
      (by decide) (by decide))⟩

/-- C10: filter_consumed_pairs returns exactly the tuples where neither
read nor mate is consumed; the result is always a sublist (hence a
subset) of the input, and an empty consumed set returns the input
unchanged (call.py lines 472-496). -/
theorem filter_consumed_pairs_spec (pairs : List (Read × Read)) (consumed : List Read)
    (pr : Read × Read) :
    (pr ∈ filter_consumed_pairs pairs consumed ↔
      pr ∈ pairs ∧ pr.1 ∉ consumed ∧ pr.2 ∉ consumed)
    ∧ (filter_consumed_pairs pairs consumed).Sublist pairs
    ∧ filter_consumed_pairs pairs [] = pairs := by
  refine ⟨?_, List.filter_sublist _, ?_⟩
  · simp [filter_consumed_pairs]
  · simp [filter_consumed_pairs]

/-- C4: every pair accepted into flanking_pairs by
EventCall.add_flanking_support with is_compatible false satisfies the
DEL fragment-size bounds, the INS fragment-size bound, the
interchromosomal consistency equation, and the quadrant position
inequalities of the orientation table (call.py lines 132-184). -/
theorem add_flanking_support_accepted_valid
    (orientation_supports_type : Read → Option SVTYPE → Bool) (ev : Evidence)
    (ec : EventCall) (pairs : List (Read × Read)) (read mate : Read)
    (h : (read, mate) ∈ addFlankingSupport orientation_supports_type ev ec pairs false) :
    (ec.event_type = SVTYPE.DEL →
      max (ev.min_expected_fragment_size +
            Interval.dist ec.break1.toInterval ec.break2.toInterval)
          ev.max_expected_fragment_size ≤ (ev.compute_fragment_size read mate).stop ∧
        (ev.compute_fragment_size read mate).start ≤
          (Interval.hull ec.break1.toInterval ec.break2.toInterval).length +
            ev.max_expected_fragment_size)
    ∧ (ec.event_type = SVTYPE.INS →
        (ev.compute_fragment_size read mate).start < ev.min_expected_fragment_size)
    ∧ ec.interchromosomal = (read.reference_id != mate.reference_id)
    ∧ (ec.break1.orient = ORIENT.LEFT → ec.break2.orient = ORIENT.LEFT →
        read.reference_start + 1 ≤ ec.break1.stop ∧
          mate.reference_start + 1 ≤ ec.break2.stop ∧
          (ec.break1.start < mate.reference_end ∨ ec.interchromosomal = true))
    ∧ (ec.break1.orient = ORIENT.LEFT → ec.break2.orient ≠ ORIENT.LEFT →
        read.reference_start + 1 ≤ ec.break1.stop ∧ ec.break2.start ≤ mate.reference_end)
    ∧ (ec.break1.orient ≠ ORIENT.LEFT → ec.break2.orient = ORIENT.LEFT →
        ec.break1.start ≤ read.reference_end ∧ mate.reference_start + 1 ≤ ec.break2.stop)
    ∧ (ec.break1.orient ≠ ORIENT.LEFT → ec.break2.orient ≠ ORIENT.LEFT →
        ec.break1.start ≤ read.reference_end ∧ ec.break2.start ≤ mate.reference_end ∧
          (read.reference_end < ec.break2.stop ∨ ec.interchromosomal = true)) := by
  have hacc : acceptFlankingPair orientation_supports_type ev ec false read mate = true := by
    have hmem := (List.mem_filter.1 h).2
    simpa [addFlankingSupport] using hmem
  simp only [acceptFlankingPair, Bool.false_eq_true, if_false] at hacc
  by_cases h1 : ec.event_type = SVTYPE.DEL ∧
      ((ev.compute_fragment_size read mate).stop <
          max (ev.min_expected_fragment_size +
              Interval.dist ec.break1.toInterval ec.break2.toInterval)
            ev.max_expected_fragment_size ∨
        (Interval.hull ec.break1.toInterval ec.break2.toInterval).length +
            ev.max_expected_fragment_size <
          (ev.compute_fragment_size read mate).start)
  · rw [if_pos h1] at hacc; cases hacc
  rw [if_neg h1] at hacc
  by_cases h2 : ec.event_type = SVTYPE.INS ∧
      ev.min_expected_fragment_size ≤ (ev.compute_fragment_size read mate).start
  · rw [if_pos h2] at hacc; cases hacc
  rw [if_neg h2] at hacc
  by_cases h3 : ec.interchromosomal ≠ (read.reference_id != mate.reference_id)
  · rw [if_pos h3] at hacc; cases hacc
  rw [if_neg h3] at hacc
  by_cases h4 : orientation_supports_type read (some ec.event_type) = false
  · rw [if_pos h4] at hacc; cases hacc
  rw [if_neg h4] at hacc
  push_neg at h1 h2 h3
  refine ⟨?_, h2, h3, ?_, ?_, ?_, ?_⟩
  · intro hdel
    exact h1 hdel
  · intro ho1 ho2
    rw [if_pos ho1, if_pos ho2] at hacc
    exact of_decide_eq_true hacc
  · intro ho1 ho2
    rw [if_pos ho1, if_neg ho2] at hacc
    exact of_decide_eq_true hacc
  · intro ho1 ho2
    rw [if_neg ho1, if_pos ho2] at hacc
    exact of_decide_eq_true hacc
  · intro ho1 ho2
    rw [if_neg ho1, if_neg ho2] at hacc
    exact of_decide_eq_true hacc

/-- C3 (amended): for every intra-chromosomal invocation of
_call_by_flanking_pairs, the call fails when fewer than
min_flanking_pairs_resolution pairs survive the fragment-size filter;
for every event type other than DUP it fails when cover1 and cover2
overlap; and for DUP it fails when cover1.start exceeds cover2.start or
cover2.end is below cover1.end, so the complementary condition is
required for the call to proceed (call.py lines 634-657). -/
theorem flanking_pairs_call_guards (ev : Evidence) (event_type : SVTYPE)
    (fbc sbc : Option Breakpoint) (consumed : List Read)
    (hintra : ev.interchromosomal = false) :
    ((survivingFlankingPairs ev event_type consumed).length <
        ev.min_flanking_pairs_resolution →
      exceptFailed (_call_by_flanking_pairs ev event_type fbc sbc consumed) = true)
    ∧ (event_type ≠ SVTYPE.DUP →
        Interval.overlaps (flankCover1 ev event_type consumed)
          (flankCover2 ev event_type consumed) →
        exceptFailed (_call_by_flanking_pairs ev event_type fbc sbc consumed) = true)
    ∧ (event_type = SVTYPE.DUP →
        ((flankCover2 ev event_type consumed).start <
            (flankCover1 ev event_type consumed).start ∨
          (flankCover2 ev event_type consumed).stop <
            (flankCover1 ev event_type consumed).stop) →
        exceptFailed (_call_by_flanking_pairs ev event_type fbc sbc consumed) = true) := by
  refine ⟨?_, ?_, ?_⟩
  · intro h1
    unfold _call_by_flanking_pairs
    rw [if_pos h1]
    rfl
  · intro hne hov
    unfold _call_by_flanking_pairs
    by_cases h1 : (survivingFlankingPairs ev event_type consumed).length <
        ev.min_flanking_pairs_resolution
    · rw [if_pos h1]; rfl
    · rw [if_neg h1]
      by_cases h2 : (survivingFlankingPairs ev event_type consumed).isEmpty = true
      · rw [if_pos h2]; rfl
      · rw [if_neg h2, if_pos ⟨hintra, hov, hne⟩]; rfl
  · intro hdup hc
    unfold _call_by_flanking_pairs
    by_cases h1 : (survivingFlankingPairs ev event_type consumed).length <
        ev.min_flanking_pairs_resolution
    · rw [if_pos h1]; rfl
    · rw [if_neg h1]
      by_cases h2 : (survivingFlankingPairs ev event_type consumed).isEmpty = true
      · rw [if_pos h2]; rfl
      · rw [if_neg h2]
        rw [if_neg (fun hcontra => hcontra.2.2 hdup)]
        rw [if_pos ⟨hintra, hdup, hc⟩]
        rfl

/-- Witness for C3: with the single flanking read of the concrete
evidence consumed, no pair survives and the flanking call fails. -/
theorem flanking_pairs_call_guards_witness :
    (survivingFlankingPairs evC3 SVTYPE.DEL [⟨0, 1000, 1100⟩]).length <
      evC3.min_flanking_pairs_resolution ∧
    exceptFailed (_call_by_flanking_pairs evC3 SVTYPE.DEL none none [⟨0, 1000, 1100⟩]) = true :=
  ⟨by decide,
    (flanking_pairs_call_guards evC3 SVTYPE.DEL none none [⟨0, 1000, 1100⟩] (by decide)).1
      (by decide)⟩

/-- Counterexample for C3 as stated: a concrete intra-chromosomal DUP
call proceeds (returns breakpoints) although cover1.start does not
exceed cover2.start and cover2.end is not below cover1.end, so that
condition is not required for the call to proceed; the source raises
exactly when the condition holds (call.py line 656). -/
theorem flanking_dup_guard_counterexample :
    _call_by_flanking_pairs evC3 SVTYPE.DUP none none [] =
      Except.ok (⟨"1", 701, 1001, ORIENT.RIGHT⟩, ⟨"1", 1600, 1900, ORIENT.LEFT⟩) ∧
    ¬((flankCover2 evC3 SVTYPE.DUP []).start < (flankCover1 evC3 SVTYPE.DUP []).start ∨
      (flankCover2 evC3 SVTYPE.DUP []).stop < (flankCover1 evC3 SVTYPE.DUP []).stop) := by
  exact ⟨rfl, by decide⟩

/-- Witness for C4: a concrete deletion pair passing every predicate is
accepted, and the theorem yields its interchromosomal consistency. -/
theorem add_flanking_support_accepted_valid_witness :
    ((⟨0, 900, 1000⟩, ⟨0, 1999, 2100⟩) : Read × Read) ∈
        addFlankingSupport ostAlways evC4 ecC4 [(⟨0, 900, 1000⟩, ⟨0, 1999, 2100⟩)] false ∧
    ecC4.interchromosomal =
      ((⟨0, 900, 1000⟩ : Read).reference_id != (⟨0, 1999, 2100⟩ : Read).reference_id) := by
  have hm : ((⟨0, 900, 1000⟩, ⟨0, 1999, 2100⟩) : Read × Read) ∈
      addFlankingSupport ostAlways evC4 ecC4 [(⟨0, 900, 1000⟩, ⟨0, 1999, 2100⟩)] false := by
    decide
  exact ⟨hm, (add_flanking_support_accepted_valid ostAlways evC4 ecC4 _ _ _ hm).2.2.1⟩

/-- C5: the orchestrator raises exactly when no method produced a call;
with diagnostics it raises their sorted semicolon-joined concatenation,
without diagnostics the literal insufficient-evidence message, and with
at least one call it returns the calls, discarding any diagnostics
(call.py lines 543-582). -/
theorem call_events_error_behaviour (cc sc : List EventCall)
    (sr : List (Except String (List EventCall))) :
    (exceptFailed (callEvents cc sc sr) = true ↔
      cc ++ sc ++ (sr.filterMap okCalls).flatten = [])
    ∧ (cc ++ sc ++ (sr.filterMap okCalls).flatten = [] → sr.filterMap errMsg ≠ [] →
        callEvents cc sc sr = Except.error (String.intercalate ";"
          (((sr.filterMap errMsg).dedup).insertionSort (· ≤ ·))))
    ∧ (cc ++ sc ++ (sr.filterMap okCalls).flatten = [] → sr.filterMap errMsg = [] →
        callEvents cc sc sr = Except.error "insufficient evidence to call events")
    ∧ (cc ++ sc ++ (sr.filterMap okCalls).flatten ≠ [] →
        callEvents cc sc sr = Except.ok (cc ++ sc ++ (sr.filterMap okCalls).flatten)) := by
  refine ⟨?_, ?_, ?_, ?_⟩
  · unfold callEvents
    by_cases hc : cc ++ sc ++ (sr.filterMap okCalls).flatten = []
    · by_cases he : (sr.filterMap errMsg).dedup ≠ []
      · rw [if_pos ⟨hc, he⟩]
        exact iff_of_true rfl hc
      · rw [if_neg (fun h => he h.2), if_pos hc]
        exact iff_of_true rfl hc
    · rw [if_neg (fun h => hc h.1), if_neg hc]
      exact iff_of_false (by simp [exceptFailed]) hc
  · intro hc he
    unfold callEvents
    rw [if_pos ⟨hc, by simpa [List.dedup_eq_nil] using he⟩]
  · intro hc he
    unfold callEvents
    rw [if_neg (fun h => h.2 (by rw [he]; rfl)), if_pos hc]
  · intro hc
    unfold callEvents
    rw [if_neg (fun h => hc h.1), if_neg hc]

/-- Witness for C5: a diagnostic from a failed resolver and no call
from the others surfaces the diagnostic. -/
theorem call_events_error_behaviour_witness :
    callEvents [] [] [Except.error "a", Except.ok []] = Except.error "a" := by
  have h := (call_events_error_behaviour [] []
      [Except.error "a", Except.ok []]).2.1 rfl (by decide)
  rw [h]
  rfl

/-- C2 (exhibiting the source bug): the de Bruijn graph of the single
input AAAA at the default k-mer size contains a cycle, yet assemble
returns an ordinary (empty) contig list instead of failing: the
NotImplementedError of assemble.py lines 147-148 is constructed but
never raised. -/
theorem assemble_cyclic_returns_normally :
    isAcyclic (buildGraph ["AAAA"] (resolveKmerSize none (minSeqLen ["AAAA"]))) = false ∧
    assemble ["AAAA"] none 3 none = [] := by
  exact ⟨by decide, by decide⟩

/-- C6: assemble returns the empty list on empty input, and every
returned contig has a sequence that equals no input sequence and has
length at least min_contig_length, defaulting to one more than the
shortest input (assemble.py lines 124-183). -/
theorem assemble_output_constraints (sequences : List String) (kmer_size : Option Nat)
    (min_edge_weight : Nat) (min_contig_length : Option Nat) :
    (sequences = [] → assemble sequences kmer_size min_edge_weight min_contig_length = [])
    ∧ (∀ c : Contig, c ∈ assemble sequences kmer_size min_edge_weight min_contig_length →
        c.seq ∉ sequences ∧
          min_contig_length.getD (minSeqLen sequences + 1) ≤ c.seq.length) := by
  constructor
  · rintro rfl; rfl
  · intro c hc
    unfold assemble at hc
    split at hc
    · cases hc
    · simp only [List.mem_map] at hc
      obtain ⟨kv, hkv, rfl⟩ := hc
      have hfilter := (List.mem_filter.1 hkv).2
      simp only [Bool.and_eq_true, decide_eq_true_eq] at hfilter
      exact hfilter

/-- Witness for C6: the empty input yields the empty list, and a
concrete two-read assembly yields one contig satisfying both output
constraints. -/
theorem assemble_output_constraints_witness :
    assemble [] none 3 none = [] ∧
    ((⟨"ACGTACGTA", 2⟩ : Contig) ∈ assemble ["ACGTACGT", "CGTACGTA"] none 1 none ∧
      (Contig.seq ⟨"ACGTACGTA", 2⟩ ∉ ["ACGTACGT", "CGTACGTA"] ∧
        (none : Option Nat).getD (minSeqLen ["ACGTACGT", "CGTACGTA"] + 1) ≤
          (Contig.seq ⟨"ACGTACGTA", 2⟩).length)) := by
  refine ⟨(assemble_output_constraints [] none 3 none).1 rfl, ?_⟩
  have hm : (⟨"ACGTACGTA", 2⟩ : Contig) ∈ assemble ["ACGTACGT", "CGTACGTA"] none 1 none := by
    decide
  exact ⟨hm, (assemble_output_constraints ["ACGTACGT", "CGTACGTA"] none 1 none).2 _ hm⟩

lemma lookupScore_cons (k : String) (v : Nat) (rest : List (String × Nat)) (t : String) :
    lookupScore ((k, v) :: rest) t = if k = t then some v else lookupScore rest t := by
  by_cases h : k = t
  · rw [if_pos h]
    simp [lookupScore, List.find?_cons_of_pos, h]
  · rw [if_neg h]
    simp [lookupScore, List.find?_cons_of_neg, h]

lemma lookupScore_updateScore (m : List (String × Nat)) (s t : String) (sc : Nat) :
    lookupScore (updateScore m s sc) t =
      if t = s then some (max ((lookupScore m s).getD 0) sc) else lookupScore m t := by
  induction m with
  | nil =>
    simp only [updateScore]
    rw [lookupScore_cons]
    by_cases h : t = s
    · subst h
      simp [lookupScore, Nat.zero_max]
    · rw [if_neg (fun hh : s = t => h hh.symm), if_neg h]
  | cons kv rest ih =>
    obtain ⟨k, v⟩ := kv
    by_cases hk : k = s
    · subst hk
      have hupd : updateScore ((k, v) :: rest) k sc = (k, max v sc) :: rest := by
        simp [updateScore]
      rw [hupd]
      simp only [lookupScore_cons]
      by_cases ht : t = k
      · subst ht
        simp
      · have ht2 : ¬k = t := fun hh => ht hh.symm
        simp [ht, ht2]
    · have hupd : updateScore ((k, v) :: rest) s sc = (k, v) :: updateScore rest s sc := by
        simp [updateScore, hk]
      rw [hupd]
      simp only [lookupScore_cons, ih]
      by_cases ht : k = t
      · subst ht
        simp [hk]
      · simp [ht, hk]

lemma collectScores_aux (g : DBGraph) (paths : List (List String))
    (m : List (String × Nat)) (s : String) :
    lookupScore (paths.foldl (fun acc p => updateScore acc (pathSeq p) (pathScore g p)) m) s =
      maxScoreAcc (lookupScore m s)
        ((paths.filter (fun p => decide (pathSeq p = s))).map (pathScore g)) := by
  induction paths generalizing m with
  | nil =>
    cases h : lookupScore m s <;> simp [maxScoreAcc, h]
  | cons p rest ih =>
    rw [List.foldl_cons, ih, lookupScore_updateScore]
    by_cases hp : pathSeq p = s
    · rw [if_pos hp.symm, hp, List.filter_cons_of_pos (by simp [hp]), List.map_cons]
      cases h : lookupScore m s with
      | none => simp [maxScoreAcc, h, Nat.zero_max]
      | some v => simp [maxScoreAcc, h]
    · rw [if_neg (fun hh => hp hh.symm), List.filter_cons_of_neg (by simp [hp])]

/-- C7: in the path enumeration of assemble, the recorded score of an
assembled string s (the first node of a path concatenated with the last
character of each subsequent node, via pathSeq) exists exactly when
some enumerated source-sink simple path assembles to s, and it equals
the maximum over all such paths of the sum of the edge frequencies
along the path (assemble.py lines 172-178). -/
theorem path_scores_keep_max (g : DBGraph) (s : String) (v : Nat) :
    lookupScore (collectScores g (allPaths g)) s = some v ↔
      (∃ p ∈ allPaths g, pathSeq p = s) ∧
        v = (((allPaths g).filter (fun p => decide (pathSeq p = s))).map
          (pathScore g)).foldl max 0 := by
  unfold collectScores
  rw [collectScores_aux]
  have hempty : lookupScore [] s = none := rfl
  rw [hempty]
  by_cases hf : ((allPaths g).filter (fun p => decide (pathSeq p = s))).map (pathScore g) = []
  · rw [show maxScoreAcc none (((allPaths g).filter (fun p => decide (pathSeq p = s))).map
        (pathScore g)) = none by simp [maxScoreAcc, hf]]
    constructor
    · intro h; cases h
    · rintro ⟨⟨p, hp, hps⟩, -⟩
      exfalso
      have hmem : p ∈ (allPaths g).filter (fun p => decide (pathSeq p = s)) :=
        List.mem_filter.2 ⟨hp, by simp [hps]⟩
      have hmap := List.mem_map_of_mem (pathScore g) hmem
      rw [hf] at hmap
      cases hmap
  · rw [show maxScoreAcc none (((allPaths g).filter (fun p => decide (pathSeq p = s))).map
        (pathScore g)) = some ((((allPaths g).filter (fun p => decide (pathSeq p = s))).map
        (pathScore g)).foldl max 0) by simp [maxScoreAcc, hf]]
    constructor
    · intro h
      refine ⟨?_, by injection h with h; exact h.symm⟩
      obtain ⟨x, hx⟩ := List.exists_mem_of_ne_nil
        ((allPaths g).filter (fun p => decide (pathSeq p = s)))
        (fun hnil => hf (by rw [hnil]; rfl))
      exact ⟨x, (List.mem_filter.1 hx).1, of_decide_eq_true (List.mem_filter.1 hx).2⟩
    · rintro ⟨-, rfl⟩
      rfl

/-- C8: when unspecified, the k-mer size is max(10, floor(0.75 times
the shortest sequence length)) clamped to that length; a caller value
exceeding the shortest length is reduced to it; and for two inputs of
length 8 the default resolves to 8 (assemble.py lines 126-137; assemble
applies resolveKmerSize to minSeqLen of its input). -/
theorem kmer_size_clamped (min_seq k : Nat) :
    resolveKmerSize none min_seq = min min_seq (max 10 (3 * min_seq / 4))
    ∧ (min_seq < k → resolveKmerSize (some k) min_seq = min_seq)
    ∧ resolveKmerSize none (minSeqLen ["ACGTACGT", "CGTACGTA"]) = 8 := by
  refine ⟨?_, ?_, by decide⟩
  · simp only [resolveKmerSize]
    split
    · omega
    · omega
  · intro h
    simp only [resolveKmerSize, if_pos h]

/-- Witness for C8: a requested k-mer size of 12 on a shortest length
of 8 is reduced to 8. -/
theorem kmer_size_clamped_witness :
    8 < 12 ∧ resolveKmerSize (some 12) 8 = 8 :=
  ⟨by decide, (kmer_size_clamped 8 12).2.1 (by decide)⟩

end Mavis
